import Mathlib

set_option linter.unusedVariables false

/-!
Shallow embedding of the libbpf-rs core (src/libbpf-rs/src/map.rs,
src/libbpf-rs/src/program.rs, src/libbpf-rs/src/wrappers.rs).

The kernel BPF subsystem is external to the library; every embedded
operation therefore takes the kernel's response to its syscall(s) as an
explicit argument (return value, errno channel, bytes written into the
caller's buffer).  Each operation returns, besides its result, the list
of kernel calls it issued, so that "issues no kernel call" is a provable
statement, and (for map operations) the map value threaded through, so
that preservation of the map's attributes is a provable statement.
-/

namespace LibbpfRs

/-- Raw byte buffers (`&[u8]` / `Vec<u8>` in the source). -/
abbrev Bytes := List Nat

/-- The library's error taxonomy (`Error` enum of the crate):
`InvalidInput` for client-side rejections, `System` for kernel failures
carrying an OS error code (an `i32` in the source, embedded as `Int`). -/
inductive Error where
  | InvalidInput (msg : String)
  | System (code : Int)
deriving DecidableEq, Repr

/-- `Result<T>` of the crate: `Result<T, Error>`. -/
abbrev Result (α : Type) := Except Error α

/-- The `errno` value `ENOENT` (“no such entry”), compared against in
`lookup` / `lookup_and_delete`. -/
def ENOENT : Int := 2

/-- Tags identifying the kernel entry points the map code invokes; an
operation's issued-call trace is a list of these. -/
inductive KernelCall where
  | mapLookupElemFlags (fd : Int) (key : Bytes) (flags : Nat)
  | mapDeleteElem (fd : Int) (key : Bytes)
  | mapLookupAndDeleteElem (fd : Int) (key : Bytes)
  | mapUpdateElem (fd : Int) (key : Bytes) (value : Bytes) (flags : Nat)
  | objGet
  | objGetInfoByFd (fd : Int)
  | mapReuseFd (fd : Int)
  | closeFd (fd : Int)
  | mapPin (ptr : Nat)
  | mapUnpin (ptr : Nat)
  | mapGetNextKey (fd : Int)
deriving DecidableEq, Repr

/-- Kernel response to one data-plane map syscall: the call's return
value, the state of the errno channel after the call, and the bytes the
kernel wrote into the caller-supplied output buffer (empty when the call
has no output buffer). -/
structure SyscallOut where
  ret : Int
  errno : Int
  written : Bytes
deriving DecidableEq, Repr

/-- `MapFlags` bitflags (`bits: u64`). -/
structure MapFlags where
  bits : Nat
deriving DecidableEq, Repr

def MapFlags.ANY : MapFlags := ⟨0⟩
def MapFlags.NO_EXIST : MapFlags := ⟨1⟩
def MapFlags.EXIST : MapFlags := ⟨2⟩
def MapFlags.LOCK : MapFlags := ⟨4⟩

/-- `Map` (post-load handle): fd, name snapshot, raw kernel type
constant `ty : bpf_map_type` (a `u32`), key/value sizes in bytes, and
the raw `bpf_map` object handle (`ptr`, embedded as an abstract `Nat`). -/
structure Map where
  fd : Int
  name : String
  ty : Nat
  key_size : Nat
  value_size : Nat
  ptr : Nat
deriving DecidableEq, Repr

/-- Result of a map operation: the `Result` value, the kernel calls the
operation issued (in order), and the map handle as it stands after the
operation (the source methods take `&self` / `&mut self`; any mutation
of the handle would show up here). -/
structure OpOut (α : Type) where
  res : Result α
  calls : List KernelCall
  map : Map
deriving Repr

/-- `MapOps::lookup` (trait default method, instantiated at `Map`):
rejects a key whose length differs from `key_size` before any kernel
call; otherwise issues `bpf_map_lookup_elem_flags` on a fresh buffer of
capacity `value_size` and then `set_len(value_size)` on success — the
returned vector holds the first `value_size` bytes of the buffer the
kernel wrote.  `ret == 0` yields `Some`, `errno == ENOENT` yields
`None`, any other failure yields `System(errno)`. -/
def Map.lookup (m : Map) (key : Bytes) (flags : MapFlags) (k : SyscallOut) :
    OpOut (Option Bytes) :=
  if key.length ≠ m.key_size then
    { res := .error (.InvalidInput
        ("key_size " ++ toString key.length ++ " != " ++ toString m.key_size))
      calls := []
      map := m }
  else
    let out : Bytes := (k.written ++ List.replicate m.value_size 0).take m.value_size
    let calls := [KernelCall.mapLookupElemFlags m.fd key flags.bits]
    if k.ret = 0 then
      { res := .ok (some out), calls := calls, map := m }
    else if k.errno = ENOENT then
      { res := .ok none, calls := calls, map := m }
    else
      { res := .error (.System k.errno), calls := calls, map := m }

/-- `MapOps::delete`: same key-size validation; `bpf_map_delete_elem`;
any nonzero return is surfaced as `System(errno)` with no special case
for `ENOENT`. -/
def Map.delete (m : Map) (key : Bytes) (k : SyscallOut) : OpOut Unit :=
  if key.length ≠ m.key_size then
    { res := .error (.InvalidInput
        ("key_size " ++ toString key.length ++ " != " ++ toString m.key_size))
      calls := []
      map := m }
  else
    let calls := [KernelCall.mapDeleteElem m.fd key]
    if k.ret = 0 then
      { res := .ok (), calls := calls, map := m }
    else
      { res := .error (.System k.errno), calls := calls, map := m }

/-- `MapOps::lookup_and_delete`: same shape as `lookup`, issuing
`bpf_map_lookup_and_delete_elem` (no flags argument). -/
def Map.lookup_and_delete (m : Map) (key : Bytes) (k : SyscallOut) :
    OpOut (Option Bytes) :=
  if key.length ≠ m.key_size then
    { res := .error (.InvalidInput
        ("key_size " ++ toString key.length ++ " != " ++ toString m.key_size))
      calls := []
      map := m }
  else
    let out : Bytes := (k.written ++ List.replicate m.value_size 0).take m.value_size
    let calls := [KernelCall.mapLookupAndDeleteElem m.fd key]
    if k.ret = 0 then
      { res := .ok (some out), calls := calls, map := m }
    else if k.errno = ENOENT then
      { res := .ok none, calls := calls, map := m }
    else
      { res := .error (.System k.errno), calls := calls, map := m }

/-- `MapOps::update`: validates the key length against `key_size`, then
the value length against `value_size`, each before any kernel call;
then issues `bpf_map_update_elem`; nonzero return becomes
`System(errno)`. -/
def Map.update (m : Map) (key : Bytes) (value : Bytes) (flags : MapFlags)
    (k : SyscallOut) : OpOut Unit :=
  if key.length ≠ m.key_size then
    { res := .error (.InvalidInput
        ("key_size " ++ toString key.length ++ " != " ++ toString m.key_size))
      calls := []
      map := m }
  else if value.length ≠ m.value_size then
    { res := .error (.InvalidInput
        ("value_size " ++ toString value.length ++ " != " ++ toString m.value_size))
      calls := []
      map := m }
  else
    let calls := [KernelCall.mapUpdateElem m.fd key value flags.bits]
    if k.ret = 0 then
      { res := .ok (), calls := calls, map := m }
    else
      { res := .error (.System k.errno), calls := calls, map := m }

/-- `true` exactly when a `Result` is an `InvalidInput` error. -/
def resultIsInvalidInput {α : Type} : Result α → Bool
  | .error (.InvalidInput _) => true
  | _ => false

/-- An `OsStr` (a path's final component): `asText` is `to_str()`, i.e.
`some` exactly when the component is valid UTF-8 text. -/
structure OsFileName where
  asText : Option String
deriving DecidableEq, Repr

/-- A filesystem path as the embedded code observes it: whether it
names a regular file (`Path::is_file`), its final component
(`Path::file_name`; a path that passes the `is_file` check always has
one, since `..`-like paths resolve to directories), and whether it can
be converted to a C string (no interior NUL byte). -/
structure FsPath where
  isFile : Bool
  fileName : OsFileName
  validC : Bool
deriving DecidableEq, Repr

/-- Modelled from the spec: `util::path_to_cstring` (the `util` module
is not under src/).  Per the spec's error taxonomy, a path that
“cannot be represented as required text” fails client-side with
`InvalidInput`; otherwise the conversion succeeds. -/
def path_to_cstring (p : FsPath) : Result Unit :=
  if p.validC then .ok () else .error (.InvalidInput "path contains NUL byte")

/-- A Rust `&str` argument as observed by `util::str_to_cstring`:
its text and whether it contains no interior NUL byte. -/
structure RsStr where
  text : String
  validC : Bool
deriving DecidableEq, Repr

/-- Modelled from the spec: `util::str_to_cstring` (the `util` module
is not under src/), the string analogue of [`path_to_cstring`]. -/
def str_to_cstring (s : RsStr) : Result Unit :=
  if s.validC then .ok () else .error (.InvalidInput "string contains NUL byte")

/-- `Map::pin`: converts the path, issues `bpf_map__pin(self.ptr, ..)`;
a nonzero return (negative errno) is flipped to a positive code. -/
def Map.pin (m : Map) (p : FsPath) (ret : Int) : OpOut Unit :=
  match path_to_cstring p with
  | .error e => { res := .error e, calls := [], map := m }
  | .ok _ =>
    if ret ≠ 0 then
      { res := .error (.System (-ret)), calls := [KernelCall.mapPin m.ptr], map := m }
    else
      { res := .ok (), calls := [KernelCall.mapPin m.ptr], map := m }

/-- `Map::unpin`: same shape as [`Map.pin`] with `bpf_map__unpin`. -/
def Map.unpin (m : Map) (p : FsPath) (ret : Int) : OpOut Unit :=
  match path_to_cstring p with
  | .error e => { res := .error e, calls := [], map := m }
  | .ok _ =>
    if ret ≠ 0 then
      { res := .error (.System (-ret)), calls := [KernelCall.mapUnpin m.ptr], map := m }
    else
      { res := .ok (), calls := [KernelCall.mapUnpin m.ptr], map := m }

/-- `MapKeyIter`: borrowed map, `prev` cursor (`None` = start from the
beginning), and the working key buffer `next`. -/
structure MapKeyIter where
  map : Map
  prev : Option Bytes
  next : Bytes
deriving DecidableEq, Repr

/-- `MapKeyIter::new`: `prev = None`, `next = vec![0; key_size]`. -/
def MapKeyIter.new (m : Map) (key_size : Nat) : MapKeyIter :=
  { map := m, prev := none, next := List.replicate key_size 0 }

/-- `Map::keys`: `MapKeyIter::new(self, self.key_size())`. -/
def Map.keys (m : Map) : MapKeyIter :=
  MapKeyIter.new m m.key_size

/-- Kernel response to `bpf_map_get_next_key`: return value and the
bytes it wrote into the caller's key buffer (written in place; a write
shorter than the buffer leaves the tail of the old content). -/
structure NextKeyOut where
  ret : Int
  written : Bytes
deriving DecidableEq, Repr

/-- `<MapKeyIter as Iterator>::next` (named `step` here because `next`
is the structure's field name): issues `bpf_map_get_next_key` with the
`prev` cursor; any nonzero return ends the iteration with `none`;
otherwise the buffer now holds the next key, `prev` is replaced with a
clone of it, and a clone of it is yielded. -/
def MapKeyIter.step (it : MapKeyIter) (k : NextKeyOut) : Option Bytes × MapKeyIter :=
  if k.ret ≠ 0 then
    (none, it)
  else
    let buf : Bytes := (k.written ++ it.next).take it.next.length
    (some buf, { map := it.map, prev := some buf, next := buf })

/-- Kernel response to `bpf_obj_get`: the returned fd and the errno
channel after the call. -/
structure ObjGetOut where
  fd : Int
  errno : Int
deriving DecidableEq, Repr

/-- `wrappers::bpf_obj_get`: converts the path, issues `bpf_obj_get`;
a negative fd is surfaced as `System(errno)` (errno channel). -/
def bpf_obj_get (p : FsPath) (k : ObjGetOut) : Result Int × List KernelCall :=
  match path_to_cstring p with
  | .error e => (.error e, [])
  | .ok _ =>
    if k.fd < 0 then
      (.error (.System k.errno), [KernelCall.objGet])
    else
      (.ok k.fd, [KernelCall.objGet])

/-- The fields of `bpf_map_info` the code reads. -/
structure BpfMapInfo where
  type_ : Nat
  key_size : Nat
  value_size : Nat
deriving DecidableEq, Repr

/-- Kernel response to `bpf_obj_get_info_by_fd`: its return value and
the info structure it filled in. -/
structure InfoOut where
  rc : Int
  info : BpfMapInfo
deriving DecidableEq, Repr

/-- `wrappers::bpf_obj_get_info_by_fd`: a nonzero return (negative
errno) is flipped to a positive `System` code; on success the filled
info structure is returned. -/
def bpf_obj_get_info_by_fd (fd : Int) (k : InfoOut) :
    Result BpfMapInfo × List KernelCall :=
  if k.rc ≠ 0 then
    (.error (.System (-k.rc)), [KernelCall.objGetInfoByFd fd])
  else
    (.ok k.info, [KernelCall.objGetInfoByFd fd])

/-- `PinnedMap`: a map handle acquired from a pinned path. -/
structure PinnedMap where
  fd : Int
  name : String
  ty : Nat
  key_size : Nat
  value_size : Nat
deriving DecidableEq, Repr

/-- `PinnedMap::try_from_path`: rejects a non-regular-file path with
`InvalidInput`; then acquires the fd via `bpf_obj_get` (which can fail
with a `System` error); then requires the final component to be valid
text (`InvalidInput` otherwise); then fills type and sizes from
`bpf_obj_get_info_by_fd`. -/
def PinnedMap.try_from_path (p : FsPath) (kget : ObjGetOut) (kinfo : InfoOut) :
    Result PinnedMap :=
  if ¬ p.isFile then
    .error (.InvalidInput "Expecting a file!")
  else
    match (bpf_obj_get p kget).1 with
    | .error e => .error e
    | .ok map_fd =>
      match p.fileName.asText with
      | none => .error (.InvalidInput "Filename cannot be represented as a String!")
      | some map_name =>
        match (bpf_obj_get_info_by_fd map_fd kinfo).1 with
        | .error e => .error e
        | .ok info =>
          .ok { fd := map_fd, name := map_name, ty := info.type_,
                key_size := info.key_size, value_size := info.value_size }

/-- `OpenMap` (pre-load handle): the raw `bpf_map` object handle. -/
structure OpenMap where
  ptr : Nat
deriving DecidableEq, Repr

/-- `OpenMap::set_initial_value`: a nonzero return of
`bpf_map__set_initial_value` (negative errno) is flipped to a positive
`System` code. -/
def OpenMap.set_initial_value (om : OpenMap) (data : Bytes) (ret : Int) :
    Result Unit :=
  if ret ≠ 0 then .error (.System (-ret)) else .ok ()

/-- `OpenMap::reuse_pinned_map`: acquires the pinned map's fd via
`bpf_obj_get` (early return on its failure), issues `bpf_map__reuse_fd`
(kernel return `reuseRet`), then always closes the fd, discarding the
close result (`closeRet`); a nonzero reuse return is flipped to a
positive `System` code. -/
def OpenMap.reuse_pinned_map (om : OpenMap) (p : FsPath) (kget : ObjGetOut)
    (reuseRet : Int) (closeRet : Int) : Result Unit × List KernelCall :=
  match bpf_obj_get p kget with
  | (.error e, tr) => (.error e, tr)
  | (.ok fd, tr) =>
    let tr := tr ++ [KernelCall.mapReuseFd fd, KernelCall.closeFd fd]
    if reuseRet ≠ 0 then
      (.error (.System (-reuseRet)), tr)
    else
      (.ok (), tr)

/-- `MapType` (`#[repr(u32)]`, maps to `enum bpf_map_type`): variants
`Unspec = 0` through `RingBuf = 27`, plus the library's own sentinel
`Unknown = u32::MAX`. -/
inductive MapType where
  | Unspec
  | Hash
  | Array
  | ProgArray
  | PerfEventArray
  | PercpuHash
  | PercpuArray
  | StackTrace
  | CgroupArray
  | LruHash
  | LruPercpuHash
  | LpmTrie
  | ArrayOfMaps
  | HashOfMaps
  | Devmap
  | Sockmap
  | Cpumap
  | Xskmap
  | Sockhash
  | CgroupStorage
  | ReuseportSockarray
  | PercpuCgroupStorage
  | Queue
  | Stack
  | SkStorage
  | DevmapHash
  | StructOps
  | RingBuf
  | Unknown
deriving DecidableEq, Repr

/-- The `u32` discriminant of each `MapType` variant. -/
def MapType.code : MapType → Nat
  | .Unspec => 0
  | .Hash => 1
  | .Array => 2
  | .ProgArray => 3
  | .PerfEventArray => 4
  | .PercpuHash => 5
  | .PercpuArray => 6
  | .StackTrace => 7
  | .CgroupArray => 8
  | .LruHash => 9
  | .LruPercpuHash => 10
  | .LpmTrie => 11
  | .ArrayOfMaps => 12
  | .HashOfMaps => 13
  | .Devmap => 14
  | .Sockmap => 15
  | .Cpumap => 16
  | .Xskmap => 17
  | .Sockhash => 18
  | .CgroupStorage => 19
  | .ReuseportSockarray => 20
  | .PercpuCgroupStorage => 21
  | .Queue => 22
  | .Stack => 23
  | .SkStorage => 24
  | .DevmapHash => 25
  | .StructOps => 26
  | .RingBuf => 27
  | .Unknown => 4294967295

/-- The derived `TryFromPrimitive` conversion for `MapType`: `some` the
variant whose discriminant matches, `none` otherwise. -/
def MapType.tryFromPrimitive (c : Nat) : Option MapType :=
  if c = 0 then some .Unspec
  else if c = 1 then some .Hash
  else if c = 2 then some .Array
  else if c = 3 then some .ProgArray
  else if c = 4 then some .PerfEventArray
  else if c = 5 then some .PercpuHash
  else if c = 6 then some .PercpuArray
  else if c = 7 then some .StackTrace
  else if c = 8 then some .CgroupArray
  else if c = 9 then some .LruHash
  else if c = 10 then some .LruPercpuHash
  else if c = 11 then some .LpmTrie
  else if c = 12 then some .ArrayOfMaps
  else if c = 13 then some .HashOfMaps
  else if c = 14 then some .Devmap
  else if c = 15 then some .Sockmap
  else if c = 16 then some .Cpumap
  else if c = 17 then some .Xskmap
  else if c = 18 then some .Sockhash
  else if c = 19 then some .CgroupStorage
  else if c = 20 then some .ReuseportSockarray
  else if c = 21 then some .PercpuCgroupStorage
  else if c = 22 then some .Queue
  else if c = 23 then some .Stack
  else if c = 24 then some .SkStorage
  else if c = 25 then some .DevmapHash
  else if c = 26 then some .StructOps
  else if c = 27 then some .RingBuf
  else if c = 4294967295 then some .Unknown
  else none

/-- The `match MapType::try_from(ty) { Ok(t) => t, Err(_) => Unknown }`
pattern shared by `Map::map_type` and `PinnedMap::map_type`. -/
def MapType.ofPrimitive (c : Nat) : MapType :=
  match MapType.tryFromPrimitive c with
  | some t => t
  | none => MapType.Unknown

/-- `<Map as MapOps>::map_type`. -/
def Map.map_type (m : Map) : MapType :=
  MapType.ofPrimitive m.ty

/-- `<PinnedMap as MapOps>::map_type`. -/
def PinnedMap.map_type (pm : PinnedMap) : MapType :=
  MapType.ofPrimitive pm.ty

/-- `ProgramType` (`#[repr(u32)]`, maps to `enum bpf_prog_type`):
`Unspec = 0` through `Lsm = 29`, plus `Unknown = u32::MAX`. -/
inductive ProgramType where
  | Unspec
  | SocketFilter
  | Kprobe
  | SchedCls
  | SchedAct
  | Tracepoint
  | Xdp
  | PerfEvent
  | CgroupSkb
  | CgroupSock
  | LwtIn
  | LwtOut
  | LwtXmit
  | SockOps
  | SkSkb
  | CgroupDevice
  | SkMsg
  | RawTracepoint
  | CgroupSockAddr
  | LwtSeg6local
  | LircMode2
  | SkReuseport
  | FlowDissector
  | CgroupSysctl
  | RawTracepointWritable
  | CgroupSockopt
  | Tracing
  | StructOps
  | Ext
  | Lsm
  | Unknown
deriving DecidableEq, Repr

/-- The `u32` discriminant of each `ProgramType` variant. -/
def ProgramType.code : ProgramType → Nat
  | .Unspec => 0
  | .SocketFilter => 1
  | .Kprobe => 2
  | .SchedCls => 3
  | .SchedAct => 4
  | .Tracepoint => 5
  | .Xdp => 6
  | .PerfEvent => 7
  | .CgroupSkb => 8
  | .CgroupSock => 9
  | .LwtIn => 10
  | .LwtOut => 11
  | .LwtXmit => 12
  | .SockOps => 13
  | .SkSkb => 14
  | .CgroupDevice => 15
  | .SkMsg => 16
  | .RawTracepoint => 17
  | .CgroupSockAddr => 18
  | .LwtSeg6local => 19
  | .LircMode2 => 20
  | .SkReuseport => 21
  | .FlowDissector => 22
  | .CgroupSysctl => 23
  | .RawTracepointWritable => 24
  | .CgroupSockopt => 25
  | .Tracing => 26
  | .StructOps => 27
  | .Ext => 28
  | .Lsm => 29
  | .Unknown => 4294967295

/-- The derived `TryFromPrimitive` conversion for `ProgramType`. -/
def ProgramType.tryFromPrimitive (c : Nat) : Option ProgramType :=
  if c = 0 then some .Unspec
  else if c = 1 then some .SocketFilter
  else if c = 2 then some .Kprobe
  else if c = 3 then some .SchedCls
  else if c = 4 then some .SchedAct
  else if c = 5 then some .Tracepoint
  else if c = 6 then some .Xdp
  else if c = 7 then some .PerfEvent
  else if c = 8 then some .CgroupSkb
  else if c = 9 then some .CgroupSock
  else if c = 10 then some .LwtIn
  else if c = 11 then some .LwtOut
  else if c = 12 then some .LwtXmit
  else if c = 13 then some .SockOps
  else if c = 14 then some .SkSkb
  else if c = 15 then some .CgroupDevice
  else if c = 16 then some .SkMsg
  else if c = 17 then some .RawTracepoint
  else if c = 18 then some .CgroupSockAddr
  else if c = 19 then some .LwtSeg6local
  else if c = 20 then some .LircMode2
  else if c = 21 then some .SkReuseport
  else if c = 22 then some .FlowDissector
  else if c = 23 then some .CgroupSysctl
  else if c = 24 then some .RawTracepointWritable
  else if c = 25 then some .CgroupSockopt
  else if c = 26 then some .Tracing
  else if c = 27 then some .StructOps
  else if c = 28 then some .Ext
  else if c = 29 then some .Lsm
  else if c = 4294967295 then some .Unknown
  else none

/-- `ProgramAttachType` (`#[repr(u32)]`, maps to `enum bpf_attach_type`):
`CgroupInetIngress = 0` through `LsmMac = 27`, plus `Unknown = u32::MAX`. -/
inductive ProgramAttachType where
  | CgroupInetIngress
  | CgroupInetEgress
  | CgroupInetSockCreate
  | CgroupSockOps
  | SkSkbStreamParser
  | SkSkbStreamVerdict
  | CgroupDevice
  | SkMsgVerdict
  | CgroupInet4Bind
  | CgroupInet6Bind
  | CgroupInet4Connect
  | CgroupInet6Connect
  | CgroupInet4PostBind
  | CgroupInet6PostBind
  | CgroupUdp4Sendmsg
  | CgroupUdp6Sendmsg
  | LircMode2
  | FlowDissector
  | CgroupSysctl
  | CgroupUdp4Recvmsg
  | CgroupUdp6Recvmsg
  | CgroupGetsockopt
  | CgroupSetsockopt
  | TraceRawTp
  | TraceFentry
  | TraceFexit
  | ModifyReturn
  | LsmMac
  | Unknown
deriving DecidableEq, Repr

/-- The `u32` discriminant of each `ProgramAttachType` variant. -/
def ProgramAttachType.code : ProgramAttachType → Nat
  | .CgroupInetIngress => 0
  | .CgroupInetEgress => 1
  | .CgroupInetSockCreate => 2
  | .CgroupSockOps => 3
  | .SkSkbStreamParser => 4
  | .SkSkbStreamVerdict => 5
  | .CgroupDevice => 6
  | .SkMsgVerdict => 7
  | .CgroupInet4Bind => 8
  | .CgroupInet6Bind => 9
  | .CgroupInet4Connect => 10
  | .CgroupInet6Connect => 11
  | .CgroupInet4PostBind => 12
  | .CgroupInet6PostBind => 13
  | .CgroupUdp4Sendmsg => 14
  | .CgroupUdp6Sendmsg => 15
  | .LircMode2 => 16
  | .FlowDissector => 17
  | .CgroupSysctl => 18
  | .CgroupUdp4Recvmsg => 19
  | .CgroupUdp6Recvmsg => 20
  | .CgroupGetsockopt => 21
  | .CgroupSetsockopt => 22
  | .TraceRawTp => 23
  | .TraceFentry => 24
  | .TraceFexit => 25
  | .ModifyReturn => 26
  | .LsmMac => 27
  | .Unknown => 4294967295

/-- The derived `TryFromPrimitive` conversion for `ProgramAttachType`. -/
def ProgramAttachType.tryFromPrimitive (c : Nat) : Option ProgramAttachType :=
  if c = 0 then some .CgroupInetIngress
  else if c = 1 then some .CgroupInetEgress
  else if c = 2 then some .CgroupInetSockCreate
  else if c = 3 then some .CgroupSockOps
  else if c = 4 then some .SkSkbStreamParser
  else if c = 5 then some .SkSkbStreamVerdict
  else if c = 6 then some .CgroupDevice
  else if c = 7 then some .SkMsgVerdict
  else if c = 8 then some .CgroupInet4Bind
  else if c = 9 then some .CgroupInet6Bind
  else if c = 10 then some .CgroupInet4Connect
  else if c = 11 then some .CgroupInet6Connect
  else if c = 12 then some .CgroupInet4PostBind
  else if c = 13 then some .CgroupInet6PostBind
  else if c = 14 then some .CgroupUdp4Sendmsg
  else if c = 15 then some .CgroupUdp6Sendmsg
  else if c = 16 then some .LircMode2
  else if c = 17 then some .FlowDissector
  else if c = 18 then some .CgroupSysctl
  else if c = 19 then some .CgroupUdp4Recvmsg
  else if c = 20 then some .CgroupUdp6Recvmsg
  else if c = 21 then some .CgroupGetsockopt
  else if c = 22 then some .CgroupSetsockopt
  else if c = 23 then some .TraceRawTp
  else if c = 24 then some .TraceFentry
  else if c = 25 then some .TraceFexit
  else if c = 26 then some .ModifyReturn
  else if c = 27 then some .LsmMac
  else if c = 4294967295 then some .Unknown
  else none

/-- `Program` (post-load handle): raw `bpf_program` object handle, name
and section snapshots (`section` is a Lean keyword, hence
`sectionName`). -/
structure Program where
  ptr : Nat
  name : String
  sectionName : String
deriving DecidableEq, Repr

/-- `Program::prog_type`: falls back to `Unknown` on an unrecognized
constant.  `kernelTy` is the value `bpf_program__get_type` reports for
`self.ptr`. -/
def Program.prog_type (pr : Program) (kernelTy : Nat) : ProgramType :=
  match ProgramType.tryFromPrimitive kernelTy with
  | some t => t
  | none => ProgramType.Unknown

/-- `Program::attach_type`: falls back to `Unknown` on an unrecognized
constant.  `kernelTy` is the value `bpf_program__get_expected_attach_type`
reports for `self.ptr`. -/
def Program.attach_type (pr : Program) (kernelTy : Nat) : ProgramAttachType :=
  match ProgramAttachType.tryFromPrimitive kernelTy with
  | some t => t
  | none => ProgramAttachType.Unknown

/-- `Link`: a live attachment, wrapping the `bpf_link` object handle. -/
structure Link where
  ptr : Nat
deriving DecidableEq, Repr

/-- The `err as i32` cast: a 64-bit integer reduced to the two's
complement 32-bit range. -/
def i32cast (x : Int) : Int :=
  (x + 2147483648) % 4294967296 - 2147483648

/-- Kernel response to a Link-producing `bpf_program__attach_*` entry
point: the opaque handle it returns, and the error signal that reading
it back through `libbpf_get_error` yields (a `long`; `0` on success,
negative-of-errno on failure by libbpf convention). -/
structure AttachOut where
  ptr : Nat
  err : Int
deriving DecidableEq, Repr

/-- `Program::attach` (auto-attach by section): a nonzero error signal
is surfaced as `System(err as i32)` and no `Link` is constructed;
otherwise the handle is wrapped in a `Link`. -/
def Program.attach (pr : Program) (k : AttachOut) : Result Link :=
  if k.err ≠ 0 then .error (.System (i32cast k.err)) else .ok { ptr := k.ptr }

/-- `Program::attach_cgroup`. -/
def Program.attach_cgroup (pr : Program) (cgroup_fd : Int) (k : AttachOut) :
    Result Link :=
  if k.err ≠ 0 then .error (.System (i32cast k.err)) else .ok { ptr := k.ptr }

/-- `Program::attach_perf_event`. -/
def Program.attach_perf_event (pr : Program) (pfd : Int) (k : AttachOut) :
    Result Link :=
  if k.err ≠ 0 then .error (.System (i32cast k.err)) else .ok { ptr := k.ptr }

/-- `Program::attach_uprobe`: converts `binary_path` first (early
return on failure), then the common attach shape. -/
def Program.attach_uprobe (pr : Program) (retprobe : Bool) (pid : Int)
    (binary_path : FsPath) (func_offset : Nat) (k : AttachOut) : Result Link :=
  match path_to_cstring binary_path with
  | .error e => .error e
  | .ok _ =>
    if k.err ≠ 0 then .error (.System (i32cast k.err)) else .ok { ptr := k.ptr }

/-- `Program::attach_kprobe`: converts `func_name` first, then the
common attach shape. -/
def Program.attach_kprobe (pr : Program) (retprobe : Bool) (func_name : RsStr)
    (k : AttachOut) : Result Link :=
  match str_to_cstring func_name with
  | .error e => .error e
  | .ok _ =>
    if k.err ≠ 0 then .error (.System (i32cast k.err)) else .ok { ptr := k.ptr }

/-- `Program::attach_tracepoint`: converts both strings first, then the
common attach shape. -/
def Program.attach_tracepoint (pr : Program) (tp_category tp_name : RsStr)
    (k : AttachOut) : Result Link :=
  match str_to_cstring tp_category with
  | .error e => .error e
  | .ok _ =>
    match str_to_cstring tp_name with
    | .error e => .error e
    | .ok _ =>
      if k.err ≠ 0 then .error (.System (i32cast k.err)) else .ok { ptr := k.ptr }

/-- `Program::attach_raw_tracepoint`. -/
def Program.attach_raw_tracepoint (pr : Program) (tp_name : RsStr)
    (k : AttachOut) : Result Link :=
  match str_to_cstring tp_name with
  | .error e => .error e
  | .ok _ =>
    if k.err ≠ 0 then .error (.System (i32cast k.err)) else .ok { ptr := k.ptr }

/-- `Program::attach_lsm`. -/
def Program.attach_lsm (pr : Program) (k : AttachOut) : Result Link :=
  if k.err ≠ 0 then .error (.System (i32cast k.err)) else .ok { ptr := k.ptr }

/-- `Program::attach_trace` (fentry/fexit). -/
def Program.attach_trace (pr : Program) (k : AttachOut) : Result Link :=
  if k.err ≠ 0 then .error (.System (i32cast k.err)) else .ok { ptr := k.ptr }

/-- `Program::attach_xdp`. -/
def Program.attach_xdp (pr : Program) (ifindex : Int) (k : AttachOut) :
    Result Link :=
  if k.err ≠ 0 then .error (.System (i32cast k.err)) else .ok { ptr := k.ptr }

/-- `Program::attach_sockmap`: a direct `bpf_prog_attach` syscall (no
`Link`); a nonzero return is surfaced as `System(errno)` (errno
channel), success is `Ok(())`. -/
def Program.attach_sockmap (pr : Program) (map_fd : Int) (k : SyscallOut) :
    Result Unit :=
  if k.ret ≠ 0 then .error (.System k.errno) else .ok ()

/-- Kernel response to `bpf_prog_test_run`: its return value and the
`retval` / `duration` output words it filled in (both `u32`). -/
structure ProgRunOut where
  ret : Int
  retval : Nat
  duration : Nat
deriving DecidableEq, Repr

/-- `Program::prog_run`: a nonzero return of `bpf_prog_test_run`
(negative errno) is flipped to a positive `System` code; on success the
program's return value and the elapsed duration (nanoseconds) are
returned. -/
def Program.prog_run (pr : Program) (repeatCount : Int) (data_in : Bytes)
    (data_out : Option Bytes) (k : ProgRunOut) : Result (Nat × Nat) :=
  if k.ret ≠ 0 then .error (.System (-k.ret)) else .ok (k.retval, k.duration)

/-! ## Helper lemmas -/

theorem i32cast_eq_self (x : Int) (h1 : -2147483648 ≤ x) (h2 : x < 2147483648) :
    i32cast x = x := by
  unfold i32cast
  omega

theorem mapType_ofPrimitive_code (c : Nat) (h : c < 28 ∨ c = 4294967295) :
    (MapType.ofPrimitive c).code = c := by
  rcases h with h | h
  · interval_cases c <;> rfl
  · subst h; rfl

theorem mapType_ofPrimitive_unknown (c : Nat) (h : ¬ (c < 28 ∨ c = 4294967295)) :
    MapType.ofPrimitive c = MapType.Unknown := by
  push_neg at h
  obtain ⟨h1, h2⟩ := h
  unfold MapType.ofPrimitive MapType.tryFromPrimitive
  repeat rw [if_neg (by omega)]

theorem programType_code_known (pr : Program) (c : Nat)
    (h : c < 30 ∨ c = 4294967295) :
    (Program.prog_type pr c).code = c := by
  rcases h with h | h
  · interval_cases c <;> rfl
  · subst h; rfl

theorem programType_unknown (pr : Program) (c : Nat)
    (h : ¬ (c < 30 ∨ c = 4294967295)) :
    Program.prog_type pr c = ProgramType.Unknown := by
  push_neg at h
  obtain ⟨h1, h2⟩ := h
  unfold Program.prog_type ProgramType.tryFromPrimitive
  repeat rw [if_neg (by omega)]

theorem attachType_code_known (pr : Program) (c : Nat)
    (h : c < 28 ∨ c = 4294967295) :
    (Program.attach_type pr c).code = c := by
  rcases h with h | h
  · interval_cases c <;> rfl
  · subst h; rfl

theorem attachType_unknown (pr : Program) (c : Nat)
    (h : ¬ (c < 28 ∨ c = 4294967295)) :
    Program.attach_type pr c = ProgramAttachType.Unknown := by
  push_neg at h
  obtain ⟨h1, h2⟩ := h
  unfold Program.attach_type ProgramAttachType.tryFromPrimitive
  repeat rw [if_neg (by omega)]

/-! ## Concrete fixtures used by witnesses and counterexamples -/

/-- A concrete loaded map handle (hash map, 4-byte keys, 8-byte values). -/
def mapA : Map :=
  { fd := 3, name := "m", ty := 1, key_size := 4, value_size := 8, ptr := 17 }

/-- A concrete successful kernel response. -/
def sysOk : SyscallOut :=
  { ret := 0, errno := 0, written := [1, 2, 3, 4, 5, 6, 7, 8] }

/-- A concrete failed kernel response with `errno = ENOENT`. -/
def sysNoEnt : SyscallOut :=
  { ret := -1, errno := 2, written := [] }

/-- A concrete failed kernel response with `errno = EPERM`. -/
def sysEperm : SyscallOut :=
  { ret := -1, errno := 1, written := [] }

/-- A concrete loaded program handle. -/
def prA : Program := { ptr := 9, name := "prog", sectionName := "kprobe/foo" }

/-! ## Claims -/

/-- C1: for every map operation `lookup`, `delete`, `lookup_and_delete`
and `update`, a key whose length differs from `key_size` — and for
`update` also a value whose length differs from `value_size`, checked
independently after the key check — makes the operation return an
`InvalidInput` error with an empty kernel-call trace. -/
theorem spec_c1 (m : Map) (key value : Bytes) (flags : MapFlags) (k : SyscallOut) :
    (key.length ≠ m.key_size →
      (resultIsInvalidInput (m.lookup key flags k).res = true ∧
        (m.lookup key flags k).calls = []) ∧
      (resultIsInvalidInput (m.delete key k).res = true ∧
        (m.delete key k).calls = []) ∧
      (resultIsInvalidInput (m.lookup_and_delete key k).res = true ∧
        (m.lookup_and_delete key k).calls = []) ∧
      (resultIsInvalidInput (m.update key value flags k).res = true ∧
        (m.update key value flags k).calls = [])) ∧
    (key.length = m.key_size → value.length ≠ m.value_size →
      resultIsInvalidInput (m.update key value flags k).res = true ∧
      (m.update key value flags k).calls = []) := by
  constructor
  · intro h
    refine ⟨⟨?_, ?_⟩, ⟨?_, ?_⟩, ⟨?_, ?_⟩, ⟨?_, ?_⟩⟩ <;>
      simp [Map.lookup, Map.delete, Map.lookup_and_delete, Map.update, h,
        resultIsInvalidInput]
  · intro hk hv
    constructor <;>
      simp [Map.update, hk, hv, resultIsInvalidInput]

/-- Witness for C1: a 1-byte key against a 4-byte `key_size` is rejected
by `lookup` with no kernel call; a 4-byte key with a 1-byte value
against an 8-byte `value_size` is rejected by `update` with no kernel
call. -/
theorem spec_c1_witness :
    (resultIsInvalidInput (mapA.lookup [0] MapFlags.ANY sysOk).res = true ∧
      (mapA.lookup [0] MapFlags.ANY sysOk).calls = []) ∧
    (resultIsInvalidInput (mapA.update [0, 0, 0, 0] [7] MapFlags.ANY sysOk).res = true ∧
      (mapA.update [0, 0, 0, 0] [7] MapFlags.ANY sysOk).calls = []) :=
  ⟨((spec_c1 mapA [0] [7] MapFlags.ANY sysOk).1 (by decide)).1,
   (spec_c1 mapA [0, 0, 0, 0] [7] MapFlags.ANY sysOk).2 (by decide) (by decide)⟩

/-- C2: for a correctly-sized key, `lookup` (and `lookup_and_delete`)
has exactly three outcomes: kernel success yields `Some` buffer of
exactly `value_size` bytes; kernel failure with `errno = ENOENT` yields
`None`, not an error; any other kernel failure yields
`System(errno)`. -/
theorem spec_c2 (m : Map) (key : Bytes) (flags : MapFlags) (k : SyscallOut)
    (hk : key.length = m.key_size) :
    (k.ret = 0 →
      ∃ out : Bytes, out.length = m.value_size ∧
        (m.lookup key flags k).res = .ok (some out) ∧
        (m.lookup_and_delete key k).res = .ok (some out)) ∧
    (k.ret ≠ 0 → k.errno = ENOENT →
      (m.lookup key flags k).res = .ok none ∧
      (m.lookup_and_delete key k).res = .ok none) ∧
    (k.ret ≠ 0 → k.errno ≠ ENOENT →
      (m.lookup key flags k).res = .error (.System k.errno) ∧
      (m.lookup_and_delete key k).res = .error (.System k.errno)) := by
  refine ⟨?_, ?_, ?_⟩
  · intro h0
    refine ⟨(k.written ++ List.replicate m.value_size 0).take m.value_size, ?_, ?_, ?_⟩
    · simp [List.length_take]
    · simp [Map.lookup, hk, h0]
    · simp [Map.lookup_and_delete, hk, h0]
  · intro h0 he
    constructor <;> simp [Map.lookup, Map.lookup_and_delete, hk, h0, he]
  · intro h0 he
    constructor <;> simp [Map.lookup, Map.lookup_and_delete, hk, h0, he]

/-- Witness for C2: on `mapA`, a successful kernel response yields
`Some` 8-byte buffer, the `ENOENT` response yields `None`, and the
`EPERM` response yields `System 1`. -/
theorem spec_c2_witness :
    (∃ out : Bytes, out.length = mapA.value_size ∧
      (mapA.lookup [0, 0, 0, 0] MapFlags.ANY sysOk).res = .ok (some out) ∧
      (mapA.lookup_and_delete [0, 0, 0, 0] sysOk).res = .ok (some out)) ∧
    (mapA.lookup [0, 0, 0, 0] MapFlags.ANY sysNoEnt).res = .ok none ∧
    (mapA.lookup [0, 0, 0, 0] MapFlags.ANY sysEperm).res = .error (.System 1) :=
  ⟨(spec_c2 mapA [0, 0, 0, 0] MapFlags.ANY sysOk (by decide)).1 (by decide),
   ((spec_c2 mapA [0, 0, 0, 0] MapFlags.ANY sysNoEnt (by decide)).2.1
      (by decide) (by decide)).1,
   ((spec_c2 mapA [0, 0, 0, 0] MapFlags.ANY sysEperm (by decide)).2.2
      (by decide) (by decide)).1⟩

/-- C6: for a correctly-sized key, `delete` propagates any kernel
failure as `System(errno)` with no `ENOENT` special case — on the very
response where `lookup` reports absence as `Ok(None)`, `delete` returns
`System(ENOENT)`. -/
theorem spec_c6 (m : Map) (key : Bytes) (k : SyscallOut)
    (hk : key.length = m.key_size) :
    (k.ret = 0 → (m.delete key k).res = .ok ()) ∧
    (k.ret ≠ 0 → (m.delete key k).res = .error (.System k.errno)) ∧
    (k.ret ≠ 0 → k.errno = ENOENT →
      (m.delete key k).res = .error (.System ENOENT) ∧
      (m.lookup key MapFlags.ANY k).res = .ok none) := by
  refine ⟨?_, ?_, ?_⟩
  · intro h0
    simp [Map.delete, hk, h0]
  · intro h0
    simp [Map.delete, hk, h0]
  · intro h0 he
    constructor <;> simp [Map.delete, Map.lookup, hk, h0, he]

/-- Witness for C6: deleting with the `ENOENT` kernel response is a
`System 2` error while `lookup` on the same response is `Ok(None)`. -/
theorem spec_c6_witness :
    (mapA.delete [0, 0, 0, 0] sysNoEnt).res = .error (.System ENOENT) ∧
    (mapA.lookup [0, 0, 0, 0] MapFlags.ANY sysNoEnt).res = .ok none :=
  (spec_c6 mapA [0, 0, 0, 0] sysNoEnt (by decide)).2.2 (by decide) (by decide)

/-- C9: every map operation — lookup, update, delete, lookup-and-delete,
key iteration, pin, unpin — leaves the map handle (fd, name, type
constant, `key_size`, `value_size`) unchanged; in particular `key_size`
and `value_size` are fixed for the map's lifetime. -/
theorem spec_c9 (m : Map) (key value : Bytes) (flags : MapFlags) (k : SyscallOut)
    (p : FsPath) (ret : Int) (kn : NextKeyOut) :
    (m.lookup key flags k).map = m ∧
    (m.delete key k).map = m ∧
    (m.lookup_and_delete key k).map = m ∧
    (m.update key value flags k).map = m ∧
    ((Map.keys m).step kn).2.map = m ∧
    (m.pin p ret).map = m ∧
    (m.unpin p ret).map = m ∧
    (m.lookup key flags k).map.key_size = m.key_size ∧
    (m.update key value flags k).map.value_size = m.value_size := by
  refine ⟨?_, ?_, ?_, ?_, ?_, ?_, ?_, ?_, ?_⟩ <;>
    first
    | (simp only [Map.lookup]; split_ifs <;> rfl)
    | (simp only [Map.delete]; split_ifs <;> rfl)
    | (simp only [Map.lookup_and_delete]; split_ifs <;> rfl)
    | (simp only [Map.update]; split_ifs <;> rfl)
    | (simp only [Map.keys, MapKeyIter.new, MapKeyIter.step]; split_ifs <;> rfl)
    | (simp only [Map.pin]; split
       · rfl
       · split_ifs <;> rfl)
    | (simp only [Map.unpin]; split
       · rfl
       · split_ifs <;> rfl)

/-- C3: the claim says every `System` error carries a positive code.
The negative-return entry points (`set_initial_value`, `prog_run`,
`pin`, the info wrapper) and the errno-channel entry points (`delete`,
`update`, `attach_sockmap`, `bpf_obj_get`) are indeed negated or
already positive — but the Link-producing attach family stores the
separately-queried error signal unnegated (`System(err as i32)`), and
by libbpf convention `libbpf_get_error` reports negative-of-errno: with
the signal `-1` (`EPERM` as negative-of-errno), `Program::attach`
produces `System(-1)`, a negative code.  (Contrast: `set_initial_value`
with kernel return `-1` does produce the positive `System 1`.) -/
theorem spec_c3 :
    Program.attach prA { ptr := 0, err := -1 } = .error (.System (-1)) ∧
    ¬ (0 < (-1 : Int)) ∧
    OpenMap.set_initial_value { ptr := 4 } [0] (-1) = .error (.System 1) := by
  refine ⟨rfl, by decide, rfl⟩

/-- C4: for every Link-producing attach variant, a nonzero
separately-queried error signal yields `System` carrying that signal
(in the `i32` range it is carried exactly) and no `Link`; a zero signal
yields a `Link` wrapping the kernel handle.  `attach_sockmap` is the
distinct variant returning unit on success and `System(errno)` on a
nonzero syscall return. -/
theorem spec_c4 (pr : Program) (k : AttachOut) (ks : SyscallOut)
    (cgroup_fd pfd ifindex map_fd pid : Int) (retprobe : Bool)
    (binary_path : FsPath) (func_offset : Nat)
    (func_name tp_category tp_name : RsStr)
    (hbp : binary_path.validC = true) (hfn : func_name.validC = true)
    (hcat : tp_category.validC = true) (hname : tp_name.validC = true)
    (hlo : -2147483648 ≤ k.err) (hhi : k.err < 2147483648) :
    (k.err ≠ 0 →
      pr.attach k = .error (.System k.err) ∧
      pr.attach_cgroup cgroup_fd k = .error (.System k.err) ∧
      pr.attach_perf_event pfd k = .error (.System k.err) ∧
      pr.attach_uprobe retprobe pid binary_path func_offset k
        = .error (.System k.err) ∧
      pr.attach_kprobe retprobe func_name k = .error (.System k.err) ∧
      pr.attach_tracepoint tp_category tp_name k = .error (.System k.err) ∧
      pr.attach_raw_tracepoint tp_name k = .error (.System k.err) ∧
      pr.attach_lsm k = .error (.System k.err) ∧
      pr.attach_trace k = .error (.System k.err) ∧
      pr.attach_xdp ifindex k = .error (.System k.err)) ∧
    (k.err = 0 →
      pr.attach k = .ok { ptr := k.ptr } ∧
      pr.attach_cgroup cgroup_fd k = .ok { ptr := k.ptr } ∧
      pr.attach_perf_event pfd k = .ok { ptr := k.ptr } ∧
      pr.attach_uprobe retprobe pid binary_path func_offset k
        = .ok { ptr := k.ptr } ∧
      pr.attach_kprobe retprobe func_name k = .ok { ptr := k.ptr } ∧
      pr.attach_tracepoint tp_category tp_name k = .ok { ptr := k.ptr } ∧
      pr.attach_raw_tracepoint tp_name k = .ok { ptr := k.ptr } ∧
      pr.attach_lsm k = .ok { ptr := k.ptr } ∧
      pr.attach_trace k = .ok { ptr := k.ptr } ∧
      pr.attach_xdp ifindex k = .ok { ptr := k.ptr }) ∧
    (ks.ret ≠ 0 → pr.attach_sockmap map_fd ks = .error (.System ks.errno)) ∧
    (ks.ret = 0 → pr.attach_sockmap map_fd ks = .ok ()) := by
  have hcast : i32cast k.err = k.err := i32cast_eq_self k.err hlo hhi
  refine ⟨?_, ?_, ?_, ?_⟩
  · intro h
    refine ⟨?_, ?_, ?_, ?_, ?_, ?_, ?_, ?_, ?_, ?_⟩ <;>
      simp [Program.attach, Program.attach_cgroup, Program.attach_perf_event,
        Program.attach_uprobe, Program.attach_kprobe, Program.attach_tracepoint,
        Program.attach_raw_tracepoint, Program.attach_lsm, Program.attach_trace,
        Program.attach_xdp, path_to_cstring, str_to_cstring,
        hbp, hfn, hcat, hname, h, hcast]
  · intro h
    refine ⟨?_, ?_, ?_, ?_, ?_, ?_, ?_, ?_, ?_, ?_⟩ <;>
      simp [Program.attach, Program.attach_cgroup, Program.attach_perf_event,
        Program.attach_uprobe, Program.attach_kprobe, Program.attach_tracepoint,
        Program.attach_raw_tracepoint, Program.attach_lsm, Program.attach_trace,
        Program.attach_xdp, path_to_cstring, str_to_cstring,
        hbp, hfn, hcat, hname, h]
  · intro h
    simp [Program.attach_sockmap, h]
  · intro h
    simp [Program.attach_sockmap, h]

/-- Witness for C4: with the error signal `-13` every attach variant
fails with `System (-13)` and no Link, and `attach_sockmap` with a
failed syscall (`errno = 9`) fails with `System 9`; with the zero
signal `attach` yields the Link wrapping handle `21`. -/
theorem spec_c4_witness :
    (prA.attach { ptr := 0, err := -13 } = .error (.System (-13)) ∧
      prA.attach_kprobe false { text := "f", validC := true } { ptr := 0, err := -13 }
        = .error (.System (-13))) ∧
    prA.attach { ptr := 21, err := 0 } = .ok { ptr := 21 } ∧
    prA.attach_sockmap 7 { ret := -1, errno := 9, written := [] }
      = .error (.System 9) :=
  by
  have hfail := spec_c4 prA { ptr := 0, err := -13 }
    { ret := -1, errno := 9, written := [] }
    1 1 1 7 1 false { isFile := false, fileName := { asText := none }, validC := true }
    0 { text := "f", validC := true } { text := "c", validC := true }
    { text := "t", validC := true } rfl rfl rfl rfl (by decide) (by decide)
  have hok := spec_c4 prA { ptr := 21, err := 0 }
    { ret := -1, errno := 9, written := [] }
    1 1 1 7 1 false { isFile := false, fileName := { asText := none }, validC := true }
    0 { text := "f", validC := true } { text := "c", validC := true }
    { text := "t", validC := true } rfl rfl rfl rfl (by decide) (by decide)
  exact ⟨⟨(hfail.1 (by decide)).1, (hfail.1 (by decide)).2.2.2.2.1⟩,
    (hok.2.1 (by decide)).1, hok.2.2.1 (by decide)⟩

/-- C5: a fresh key iterator starts from a `none` previous-key cursor
with a `key_size`-byte working buffer; every advance either terminates
the sequence with `none` on any nonzero kernel return, or yields a key
buffer of exactly `key_size` bytes and stores exactly that buffer as
the new previous-key cursor. -/
theorem spec_c5 (m : Map) (it : MapKeyIter) (k : NextKeyOut)
    (hlen : it.next.length = it.map.key_size) :
    (Map.keys m).prev = none ∧
    (Map.keys m).next.length = m.key_size ∧
    (k.ret ≠ 0 → it.step k = (none, it)) ∧
    (k.ret = 0 →
      ∃ buf : Bytes, buf.length = it.map.key_size ∧
        it.step k = (some buf, { map := it.map, prev := some buf, next := buf })) := by
  refine ⟨rfl, ?_, ?_, ?_⟩
  · simp [Map.keys, MapKeyIter.new]
  · intro h
    simp [MapKeyIter.step, h]
  · intro h
    refine ⟨(k.written ++ it.next).take it.next.length, ?_, ?_⟩
    · simp [List.length_take]
      omega
    · simp [MapKeyIter.step, h]

/-- Witness for C5: one successful advance of `mapA`'s fresh iterator
yields the 4-byte key the kernel wrote and stores it as the new
cursor. -/
theorem spec_c5_witness :
    ∃ buf : Bytes, buf.length = (Map.keys mapA).map.key_size ∧
      (Map.keys mapA).step { ret := 0, written := [9, 8, 7, 6] }
        = (some buf,
           { map := (Map.keys mapA).map, prev := some buf, next := buf }) :=
  (spec_c5 mapA (Map.keys mapA) { ret := 0, written := [9, 8, 7, 6] }
    (by decide)).2.2.2 (by decide)

/-- A concrete path naming a regular file whose final component is not
valid UTF-8 text (`to_str()` returns `None`). -/
def badNamePath : FsPath :=
  { isFile := true, fileName := { asText := none }, validC := true }

/-- Counterexample to C7 as stated: on a path whose final component is
not representable as text, `try_from_path` can return a `System` error
rather than `InvalidInput` — the `bpf_obj_get` call runs before the
text check, and here it fails (fd `-1`, errno `13`), so the result is
`System 13` even though the final component is invalid text. -/
theorem spec_c7_counterexample :
    PinnedMap.try_from_path badNamePath { fd := -1, errno := 13 }
        { rc := 0, info := { type_ := 1, key_size := 4, value_size := 8 } }
      = .error (.System 13) ∧
    badNamePath.fileName.asText = none ∧
    badNamePath.isFile = true := by
  refine ⟨rfl, rfl, rfl⟩

/-- C7 (amended): `try_from_path` fails with `InvalidInput` when the
path does not name a regular file (checked before any kernel call);
when the path is a regular file, the get-fd kernel call runs next, and
only after it succeeds does an untextable final component fail with
`InvalidInput`; on success the map's name is the path's final
component and its type, key size, and value size are those reported by
the get-info-by-fd call, its fd the one from get-fd. -/
theorem spec_c7 (p : FsPath) (kget : ObjGetOut) (kinfo : InfoOut) :
    (p.isFile = false →
      PinnedMap.try_from_path p kget kinfo
        = .error (.InvalidInput "Expecting a file!")) ∧
    (p.isFile = true → p.validC = true → 0 ≤ kget.fd →
      p.fileName.asText = none →
      PinnedMap.try_from_path p kget kinfo
        = .error (.InvalidInput "Filename cannot be represented as a String!")) ∧
    (∀ s : String, p.isFile = true → p.validC = true → 0 ≤ kget.fd →
      p.fileName.asText = some s → kinfo.rc = 0 →
      PinnedMap.try_from_path p kget kinfo
        = .ok { fd := kget.fd, name := s, ty := kinfo.info.type_,
                key_size := kinfo.info.key_size,
                value_size := kinfo.info.value_size }) := by
  refine ⟨?_, ?_, ?_⟩
  · intro h
    simp [PinnedMap.try_from_path, h]
  · intro hf hv hfd hn
    have hnl : ¬ (kget.fd < 0) := by omega
    simp [PinnedMap.try_from_path, bpf_obj_get, path_to_cstring, hf, hv, hnl, hn]
  · intro s hf hv hfd hn hrc
    have hnl : ¬ (kget.fd < 0) := by omega
    simp [PinnedMap.try_from_path, bpf_obj_get, path_to_cstring,
      bpf_obj_get_info_by_fd, hf, hv, hnl, hn, hrc]

/-- Witness for C7 (amended): a non-file path is rejected with
`InvalidInput`, and a valid path with a successful get-fd (`fd 5`) and
get-info call produces the pinned map named after the final component
with the kernel-reported type and sizes. -/
theorem spec_c7_witness :
    PinnedMap.try_from_path
        { isFile := false, fileName := { asText := some "x" }, validC := true }
        { fd := 5, errno := 0 }
        { rc := 0, info := { type_ := 1, key_size := 4, value_size := 8 } }
      = .error (.InvalidInput "Expecting a file!") ∧
    PinnedMap.try_from_path
        { isFile := true, fileName := { asText := some "mymap" }, validC := true }
        { fd := 5, errno := 0 }
        { rc := 0, info := { type_ := 1, key_size := 4, value_size := 8 } }
      = .ok { fd := 5, name := "mymap", ty := 1, key_size := 4, value_size := 8 } :=
  ⟨(spec_c7 { isFile := false, fileName := { asText := some "x" }, validC := true }
      { fd := 5, errno := 0 }
      { rc := 0, info := { type_ := 1, key_size := 4, value_size := 8 } }).1 rfl,
   (spec_c7 { isFile := true, fileName := { asText := some "mymap" }, validC := true }
      { fd := 5, errno := 0 }
      { rc := 0, info := { type_ := 1, key_size := 4, value_size := 8 } }).2.2
      "mymap" rfl rfl (by decide) rfl rfl⟩

/-- C8: for every kernel-reported type constant, `map_type` (on `Map`
and `PinnedMap`), `prog_type`, and `attach_type` return the variant
with that discriminant when the constant is in the known closed set
(`0..=27` resp. `0..=29` resp. `0..=27`, plus `u32::MAX`), and return
the sentinel `Unknown` variant for any constant outside that set. -/
theorem spec_c8 (m : Map) (pm : PinnedMap) (pr : Program) (c : Nat) :
    ((m.ty < 28 ∨ m.ty = 4294967295) → (Map.map_type m).code = m.ty) ∧
    (¬ (m.ty < 28 ∨ m.ty = 4294967295) → Map.map_type m = MapType.Unknown) ∧
    ((pm.ty < 28 ∨ pm.ty = 4294967295) → (PinnedMap.map_type pm).code = pm.ty) ∧
    (¬ (pm.ty < 28 ∨ pm.ty = 4294967295) →
      PinnedMap.map_type pm = MapType.Unknown) ∧
    ((c < 30 ∨ c = 4294967295) → (pr.prog_type c).code = c) ∧
    (¬ (c < 30 ∨ c = 4294967295) → pr.prog_type c = ProgramType.Unknown) ∧
    ((c < 28 ∨ c = 4294967295) → (pr.attach_type c).code = c) ∧
    (¬ (c < 28 ∨ c = 4294967295) → pr.attach_type c = ProgramAttachType.Unknown) := by
  refine ⟨?_, ?_, ?_, ?_, ?_, ?_, ?_, ?_⟩
  · exact fun h => mapType_ofPrimitive_code m.ty h
  · exact fun h => mapType_ofPrimitive_unknown m.ty h
  · exact fun h => mapType_ofPrimitive_code pm.ty h
  · exact fun h => mapType_ofPrimitive_unknown pm.ty h
  · exact fun h => programType_code_known pr c h
  · exact fun h => programType_unknown pr c h
  · exact fun h => attachType_code_known pr c h
  · exact fun h => attachType_unknown pr c h

/-- Witness for C8: `mapA` (type constant `1`) reads back as code `1`;
a map with the out-of-set constant `28` reads back as `Unknown`; the
program-type constant `2` (`Kprobe`) reads back as code `2`; the
attach-type constant `4294967296` (outside the set) reads back as
`Unknown`. -/
theorem spec_c8_witness :
    (Map.map_type mapA).code = mapA.ty ∧
    Map.map_type { fd := 3, name := "m", ty := 28, key_size := 4,
                   value_size := 8, ptr := 17 } = MapType.Unknown ∧
    (prA.prog_type 2).code = 2 ∧
    prA.attach_type 4294967296 = ProgramAttachType.Unknown := by
  have h1 := spec_c8 mapA
    { fd := 3, name := "m", ty := 28, key_size := 4, value_size := 8 } prA 2
  have h2 := spec_c8
    { fd := 3, name := "m", ty := 28, key_size := 4, value_size := 8, ptr := 17 }
    { fd := 3, name := "m", ty := 28, key_size := 4, value_size := 8 } prA 4294967296
  exact ⟨h1.1 (by decide), h2.2.1 (by decide), h1.2.2.2.2.1 (by decide),
    h2.2.2.2.2.2.2.2 (by decide)⟩

/-- C10: once `bpf_obj_get` has produced a valid fd, the reuse path
issues the reuse-fd call and then closes that fd on every outcome —
the trace ends `[reuse, close]` whether the reuse call succeeds or
fails; a nonzero reuse return yields `System` carrying the negated
return code, and the result never depends on the close call's own
return value. -/
theorem spec_c10 (om : OpenMap) (p : FsPath) (kget : ObjGetOut)
    (reuseRet closeA closeB : Int)
    (hc : p.validC = true) (hfd : 0 ≤ kget.fd) :
    (om.reuse_pinned_map p kget reuseRet closeA).2
      = [KernelCall.objGet, KernelCall.mapReuseFd kget.fd,
         KernelCall.closeFd kget.fd] ∧
    (reuseRet ≠ 0 →
      (om.reuse_pinned_map p kget reuseRet closeA).1
        = .error (.System (-reuseRet))) ∧
    (reuseRet = 0 →
      (om.reuse_pinned_map p kget reuseRet closeA).1 = .ok ()) ∧
    om.reuse_pinned_map p kget reuseRet closeA
      = om.reuse_pinned_map p kget reuseRet closeB := by
  have hnl : ¬ (kget.fd < 0) := by omega
  refine ⟨?_, ?_, ?_, ?_⟩
  · by_cases hr : reuseRet = 0 <;>
      simp [OpenMap.reuse_pinned_map, bpf_obj_get, path_to_cstring, hc, hnl, hr]
  · intro h
    simp [OpenMap.reuse_pinned_map, bpf_obj_get, path_to_cstring, hc, hnl, h]
  · intro h
    simp [OpenMap.reuse_pinned_map, bpf_obj_get, path_to_cstring, hc, hnl, h]
  · rfl

/-- Witness for C10: with a valid path and fd `6`, a failed reuse call
(return `-22`) produces `System 22` and the trace
`[objGet, reuse 6, close 6]`, regardless of the close result. -/
theorem spec_c10_witness :
    (OpenMap.reuse_pinned_map { ptr := 4 }
        { isFile := true, fileName := { asText := some "x" }, validC := true }
        { fd := 6, errno := 0 } (-22) 0).2
      = [KernelCall.objGet, KernelCall.mapReuseFd 6, KernelCall.closeFd 6] ∧
    (OpenMap.reuse_pinned_map { ptr := 4 }
        { isFile := true, fileName := { asText := some "x" }, validC := true }
        { fd := 6, errno := 0 } (-22) 0).1 = .error (.System 22) := by
  have h := spec_c10 { ptr := 4 }
    { isFile := true, fileName := { asText := some "x" }, validC := true }
    { fd := 6, errno := 0 } (-22) 0 (-1) rfl (by decide)
  exact ⟨h.1, h.2.1 (by decide)⟩

end LibbpfRs
